import Mathlib

/-!
Verification of the PayslipMax model-asset pipeline scripts.

This file gives a shallow embedding of the Python scripts under `Scripts/` and
`ModelDownloads/conversion_workspace/` and proves (or refutes) the stated
properties of the pipeline: integrity bookkeeping of the written model
manifest, failure behaviour of the downloaders, the compatibility probe's
classification, the converter's handling of unsupported operators, the
model-replacement routine's backup discipline, and the strategy-selection
logic.

Modelling conventions:
  - file bytes are `List Nat` (one entry per byte);
  - a filesystem is an association list from path to bytes, most recent
    write first;
  - external library behaviour (the SHA-256 compression function inside
    `hashlib`, the TensorFlow Lite converter, the network) is either kept
    abstract as a quantified parameter or modelled from the spec, as noted
    at each definition.
-/

namespace PayslipMax

/-- File contents: one natural number per byte. -/
abbrev Bytes := List Nat

/-- A flat filesystem: association list from path to bytes.  A write prepends,
so `read` (first match) sees the most recent write. -/
abbrev FS := List (String × Bytes)

/-- Read a file: first binding for the path, if any. -/
def FS.read : FS → String → Option Bytes
  | [], _ => none
  | (q, bs) :: rest, p => if q = p then some bs else FS.read rest p

/-- Write (create or overwrite) a file. -/
def FS.write (fs : FS) (p : String) (bs : Bytes) : FS :=
  (p, bs) :: fs

/-- Whether the second character list is an initial segment of the first. -/
def charsStartWith : List Char → List Char → Bool
  | _, [] => true
  | [], _ :: _ => false
  | c :: cs, d :: ds => c = d && charsStartWith cs ds

/-- Whether `sub` occurs contiguously in the second list. -/
def charsContain (sub : List Char) : List Char → Bool
  | [] => sub.isEmpty
  | c :: rest => charsStartWith (c :: rest) sub || charsContain sub rest

/-- Python's substring operator `sub in s`, as used in
`"edgetpu-custom-op" in str(e)`: true exactly when `sub` occurs in `s`. -/
def pyIn (sub s : String) : Bool :=
  charsContain sub.data s.data

namespace download_models

/-!
Embedding of `ModelDownloads/conversion_workspace/download_models.py`.
`calculate_checksum` (lines 33-39) is textually identical to the copy in
`download_latest_models.py` (lines 34-40), so it is embedded once.
-/

/-- The chunk sequence produced by repeatedly calling `f.read(n)` on a file
holding `l` and stopping at the first empty result (`iter(lambda: f.read(n),
b"")`).  With `n = 0`, Python's `f.read(0)` returns `b""` immediately, so the
loop yields no chunks. -/
def readChunks (n : Nat) : Bytes → List Bytes
  | [] => []
  | l@(_ :: _) => if n = 0 then [] else l.take n :: readChunks n (l.drop n)
termination_by l => l.length
decreasing_by
  simp_all
  omega

/-- A `hashlib.sha256()` object: it accumulates the bytes passed to
`update`.  The SHA-256 compression itself is external library code; it is
kept abstract as a digest map `sha256 : Bytes → String` supplied to
`hexdigest`, quantified in every theorem. -/
structure HashObj where
  message : Bytes

/-- Method `update` appends the chunk to the accumulated message. -/
def HashObj.update (h : HashObj) (chunk : Bytes) : HashObj :=
  ⟨h.message ++ chunk⟩

/-- Method `hexdigest` digests the accumulated message. -/
def HashObj.hexdigest (sha256 : Bytes → String) (h : HashObj) : String :=
  sha256 h.message

/-- Function `calculate_checksum`, generalized over the internal chunk size passed to
`f.read` (the source uses 4096): fold the file's chunks into a fresh SHA-256
object and return its hex digest. -/
def calculate_checksum_with (sha256 : Bytes → String) (chunkSize : Nat)
    (contents : Bytes) : String :=
  let sha256_hash : HashObj := ⟨[]⟩
  ((readChunks chunkSize contents).foldl HashObj.update sha256_hash).hexdigest sha256

/-- Function `calculate_checksum` exactly as in the source: 4096-byte chunks. -/
def calculate_checksum (sha256 : Bytes → String) (contents : Bytes) : String :=
  calculate_checksum_with sha256 4096 contents

/-- One entry of the `models` mapping of the metadata document written by
`main` (lines 200-253).  The `description`, `accuracy_baseline` (a float) and
`enhancement_type` fields are carried as written; `accuracy_baseline` is kept
as its decimal literal text since no claim computes with it. -/
structure ModelEntry where
  filename : String
  version : String
  size_bytes : Nat
  checksum : String
  description : String
  input_shape : List Nat
  output_shape : List Nat
  accuracy_baseline : String
  performance_target_ms : Nat
  enhancement_type : String
  deriving DecidableEq, Repr

/-- The metadata document (manifest) written by `main`.  The aggregate
`metadata` block (total size in MB, framework strings) is not referenced by
any claim and is omitted. -/
structure Metadata where
  version : String
  created_at : String
  enhancement_type : String
  models : List (String × ModelEntry)
  deriving DecidableEq, Repr

/-- Observable durable mutations performed by `main`, in program order. -/
inductive Event where
  | writeFile (path : String) (bytes : Bytes)
  | writeManifest (path : String) (m : Metadata)
  deriving DecidableEq, Repr

/-- The model-creation pipeline `main` (lines 41-265).  The three TensorFlow
Lite conversions are external library calls producing opaque byte strings, so
the converted blobs `tflite_model`, `tflite_ocr` and `tflite_fin` are
parameters; the SHA-256 digest map is abstract as in `calculate_checksum`.
Each blob is written to its output path, its size taken from the in-memory
bytes (`len(...)`), its checksum recomputed from the file on disk
(`calculate_checksum(path)`), and finally the metadata document is written as
the last step.  Returns the final filesystem, the metadata value, and the
ordered list of durable mutations. -/
def main (sha256 : Bytes → String) (tflite_model tflite_ocr tflite_fin : Bytes)
    (fs0 : FS) : FS × Metadata × List Event :=
  let output_path := "converted_models/pp_structure_v2_real.tflite"
  let fs1 := fs0.write output_path tflite_model
  let file_size := tflite_model.length
  let checksum := calculate_checksum sha256 ((fs1.read output_path).getD [])
  let ocr_output_path := "converted_models/pp_ocr_v3_real.tflite"
  let fs2 := fs1.write ocr_output_path tflite_ocr
  let ocr_size := tflite_ocr.length
  let ocr_checksum := calculate_checksum sha256 ((fs2.read ocr_output_path).getD [])
  let fin_output_path := "converted_models/financial_data_validator_real.tflite"
  let fs3 := fs2.write fin_output_path tflite_fin
  let fin_size := tflite_fin.length
  let fin_checksum := calculate_checksum sha256 ((fs3.read fin_output_path).getD [])
  let metadata : Metadata :=
    { version := "3.0.0"
      created_at := "2025-01-18T18:00:00Z"
      enhancement_type := "real_model_conversion"
      models :=
        [("pp_structure_v2_real",
          { filename := "pp_structure_v2_real.tflite"
            version := "3.0.0"
            size_bytes := file_size
            checksum := checksum
            description := "Real PP-StructureV2 enhanced table structure recognition"
            input_shape := [1, 608, 608, 3]
            output_shape := [1, 152, 152, 5]
            accuracy_baseline := "0.98"
            performance_target_ms := 250
            enhancement_type := "real_tensorflow_lite_model" }),
         ("pp_ocr_v3_real",
          { filename := "pp_ocr_v3_real.tflite"
            version := "3.0.0"
            size_bytes := ocr_size
            checksum := ocr_checksum
            description := "Real PP-OCRv3 enhanced multilingual OCR"
            input_shape := [1, 48, 320, 3]
            output_shape := [1, 40, 6625]
            accuracy_baseline := "0.98"
            performance_target_ms := 200
            enhancement_type := "real_tensorflow_lite_model" }),
         ("financial_data_validator_real",
          { filename := "financial_data_validator_real.tflite"
            version := "3.0.0"
            size_bytes := fin_size
            checksum := fin_checksum
            description := "Real financial data validation with deep learning"
            input_shape := [1, 128]
            output_shape := [1, 10]
            accuracy_baseline := "0.99"
            performance_target_ms := 50
            enhancement_type := "real_tensorflow_lite_model" })] }
  (fs3, metadata,
    [Event.writeFile output_path tflite_model,
     Event.writeFile ocr_output_path tflite_ocr,
     Event.writeFile fin_output_path tflite_fin,
     Event.writeManifest "converted_models/model_metadata_v3.json" metadata])

/-!
Fetcher `download_file` (lines 12-31): `requests.get` followed by
`raise_for_status`, then the destination is opened for writing and the
response chunks are streamed into it.  A run of the helper is determined by
the response behaviour and whether the destination can be opened.
-/

/-- The remote response as observed by `download_file`: either a non-success
HTTP status (so `raise_for_status` raises before the destination is opened),
or a stream that delivers `chunks` and then, when `midError` is set, raises a
network error after the final delivered chunk. -/
inductive Response where
  | badStatus (code : Nat)
  | stream (chunks : List Bytes) (midError : Bool)
  deriving DecidableEq, Repr

/-- Result of a `download_file` run: the returned byte count, or the message
of the exception that propagated out. -/
inductive FetchResult where
  | ok (downloaded : Nat)
  | error (msg : String)
  deriving DecidableEq, Repr

/-- Function `download_file` (lines 12-31).  On a bad status the destination is never
opened.  Otherwise `open(filename, 'wb')` truncates/creates the destination
(modelled by the single write of the accumulated content, since no reader
runs in between) and every delivered chunk is written before any mid-stream
error propagates; the `with` block closes the file but never removes it, so
on a mid-stream error the destination keeps the delivered prefix. -/
def download_file (canOpen : Bool) (r : Response) (filename : String)
    (fs : FS) : FetchResult × FS :=
  match r with
  | .badStatus code => (.error ("HTTPError " ++ toString code), fs)
  | .stream chunks midError =>
    if canOpen = false then
      (.error "destination cannot be opened for writing", fs)
    else
      let written := chunks.flatten
      let fs1 := fs.write filename written
      if midError then (.error "connection broken during transfer", fs1)
      else (.ok written.length, fs1)

end download_models

namespace convert_edgetpu_to_cpu

/-!
Embedding of `Scripts/convert_edgetpu_to_cpu.py`.
-/

/-- Classification printed by `check_model_compatibility`: load succeeded,
load failed with a message containing `edgetpu-custom-op`, or load failed
with any other message. -/
inductive ProbeLog where
  | cpuCompatible (path : String)
  | edgetpuIncompatible (path e : String)
  | otherError (path e : String)
  deriving DecidableEq, Repr

/-- Function `check_model_compatibility` (lines 12-25).  The attempt to build a
`tf.lite.Interpreter` and allocate tensors is external runtime behaviour,
passed in as `load` (success, or the raised exception's message).  Returns
the function's boolean result together with the classification it printed:
on any failure the result is `false`; only the printed message distinguishes
the `edgetpu-custom-op` case from other errors. -/
def check_model_compatibility (load : Except String Unit) (model_path : String) :
    Bool × ProbeLog :=
  match load with
  | .ok _ => (true, .cpuCompatible model_path)
  | .error e =>
    if pyIn "edgetpu-custom-op" e then (false, .edgetpuIncompatible model_path e)
    else (false, .otherError model_path e)

/-- Actions performed by `main` (lines 57-102), in order.  `writeCpuModel`
stands for writing a converted model into the active models directory (a call
to `convert_model_from_saved_model`); `main` contains no such call, so the
constructor lets the no-commit property be stated.  `abortAttributeError`
records that the placeholder message for an incompatible model evaluates
`original_name.stem` on a `str`, which raises `AttributeError` and ends the
run. -/
inductive CAction where
  | notFound (path : String)
  | backupCopy (src dst : String)
  | writeCpuModel (path : String)
  | abortAttributeError (name : String)
  deriving DecidableEq, Repr

/-- The `models_to_convert` mapping of `main` (lines 65-72). -/
def models_to_convert : List (String × String) :=
  [("table_detection.tflite", "table_detection_cpu.tflite"),
   ("text_recognition.tflite", "text_recognition_cpu.tflite"),
   ("document_classifier.tflite", "document_classifier_cpu.tflite"),
   ("financial_data_validator.tflite", "financial_data_validator_cpu.tflite"),
   ("pp_ocr_v3.tflite", "pp_ocr_v3_cpu.tflite"),
   ("pp_structure_v2.tflite", "pp_structure_v2_cpu.tflite")]

/-- The per-model loop of `main` (lines 76-102).  `onDisk` answers
`original_path.exists()`, `load` gives the interpreter-load outcome per path,
`backupOnDisk` answers `backup_path.exists()`.  A compatible model leads to
no action; an incompatible one is backed up (if no backup exists) and then
the placeholder print raises `AttributeError` (see `CAction`), so the loop
does not continue past the first incompatible model, and no converted model
is ever written. -/
def convertLoop (onDisk : String → Bool) (load : String → Except String Unit)
    (backupOnDisk : String → Bool) : List (String × String) → List CAction
  | [] => []
  | (original_name, _cpu_name) :: rest =>
    let original_path := "PayslipMax/Resources/Models/" ++ original_name
    if onDisk original_path = false then
      .notFound original_path :: convertLoop onDisk load backupOnDisk rest
    else if (check_model_compatibility (load original_path) original_path).1 then
      convertLoop onDisk load backupOnDisk rest
    else
      let backup_path := "PayslipMax/Resources/Models/EdgeTPU_Backup/" ++ original_name
      (if backupOnDisk backup_path then [] else [.backupCopy original_path backup_path]) ++
        [.abortAttributeError original_name]

/-- Function `main` (lines 57-102): run the loop over the fixed mapping. -/
def convertMain (onDisk : String → Bool) (load : String → Except String Unit)
    (backupOnDisk : String → Bool) : List CAction :=
  convertLoop onDisk load backupOnDisk models_to_convert

/-- The two operator-set values requested by the converter configuration. -/
inductive OpsSet where
  | TFLITE_BUILTINS
  | SELECT_TF_OPS
  deriving DecidableEq, Repr

/-- A SavedModel source: the operator names it uses plus the bytes the
conversion would emit. -/
structure SavedModel where
  ops : List String
  bytes : Bytes
  deriving DecidableEq, Repr

/-- The converter configuration set up in lines 30-41. -/
structure ConverterOptions where
  optimizations_default : Bool
  supported_ops : List OpsSet
  experimental_new_converter : Bool
  allow_custom_ops : Bool
  deriving DecidableEq, Repr

/-- Modelled from the spec: the `tf.lite.TFLiteConverter.convert()` call is
external library code; per the Converter contract, when `allow_custom_ops` is
false and the source model contains an operator that no requested operator
set supports, conversion fails with an unsupported-operator error instead of
falling back to a custom/accelerator op; otherwise it emits the converted
bytes.  `supports` abstracts which operators each requested set covers. -/
def converterConvert (supports : OpsSet → String → Bool)
    (opts : ConverterOptions) (m : SavedModel) : Except String Bytes :=
  match m.ops.find? (fun op => !(opts.supported_ops.any (fun s => supports s op))) with
  | some op =>
    if opts.allow_custom_ops then .ok m.bytes
    else .error ("Unsupported operator: " ++ op)
  | none => .ok m.bytes

/-- Function `convert_model_from_saved_model` (lines 27-55): configure the converter
with `TFLITE_BUILTINS` + `SELECT_TF_OPS` and `allow_custom_ops = False`,
convert, and write the output bytes only on success; any exception is caught
and `False` is returned with the filesystem untouched.  The second component
of the result is the error message printed on failure. -/
def convert_model_from_saved_model (supports : OpsSet → String → Bool)
    (m : SavedModel) (output_path : String) (fs : FS) :
    (Bool × Option String) × FS :=
  let converterOpts : ConverterOptions :=
    { optimizations_default := true
      supported_ops := [.TFLITE_BUILTINS, .SELECT_TF_OPS]
      experimental_new_converter := true
      allow_custom_ops := false }
  match converterConvert supports converterOpts m with
  | .ok tflite_model => ((true, none), fs.write output_path tflite_model)
  | .error e => ((false, some ("Conversion failed: " ++ e)), fs)

end convert_edgetpu_to_cpu

namespace fix_models_strategy

/-!
Embedding of `Scripts/fix_models_strategy.py`.
-/

/-- The glob patterns of `broken_models` (lines 53-59). -/
def broken_models : List String :=
  ["document_classifier.tflite",
   "financial_data_validator*.tflite",
   "layout_lm_v3.tflite",
   "pp_ocr_v*.tflite",
   "pp_structure_v*.tflite"]

/-- Matching of one of the above glob patterns against a file name.  Every
pattern in `broken_models` contains at most one `*`, which matches any
(possibly empty) character sequence. -/
def globMatch (pat name : String) : Bool :=
  match pat.splitOn "*" with
  | [p] => name == p
  | [p, s] =>
    name.startsWith p && name.endsWith s && p.length + s.length ≤ name.length
  | _ => false

/-- The two directories `remove_broken_models` works on: the active models
directory and the backup directory, each a flat file listing. -/
structure Store where
  active : FS
  backup : FS
  deriving DecidableEq, Repr

/-- Call `shutil.copy2(model_file, backup_dir / model_file.name)` (line 64): read
the current bytes of the file and write them into the backup directory.  A
missing source would raise in Python; it cannot occur in the generated traces
because every copied name was just listed from `active`, so the model maps it
to a no-op. -/
def Store.copy2 (st : Store) (name : String) : Store :=
  match st.active.read name with
  | some bs => { st with backup := st.backup.write name bs }
  | none => st

/-- Call `model_file.unlink()` (line 66): remove the file from the active
directory. -/
def Store.unlink (st : Store) (name : String) : Store :=
  { st with active := st.active.filter (fun f => f.1 != name) }

/-- Process the snapshot of names matched by one pattern: for each, back the
file up and then remove it.  Returns the final store and every intermediate
store, in order (one after the copy, one after the removal, per file). -/
def processMatched (st : Store) : List String → Store × List Store
  | [] => (st, [])
  | n :: rest =>
    let st1 := st.copy2 n
    let st2 := st1.unlink n
    let r := processMatched st2 rest
    (r.1, st1 :: st2 :: r.2)

/-- One iteration of the pattern loop (lines 61-67): `models_dir.glob(pattern)`
lists the currently present matching files, then each is backed up and
removed. -/
def processPattern (st : Store) (pat : String) : Store × List Store :=
  processMatched st ((st.active.filter (fun f => globMatch pat f.1)).map Prod.fst)

/-- Function `remove_broken_models` (lines 45-67): fold the pattern loop over the
fixed pattern list, collecting every intermediate store. -/
def remove_broken_models (st0 : Store) : Store × List Store :=
  broken_models.foldl
    (fun acc pat =>
      let r := processPattern acc.1 pat
      (r.1, acc.2 ++ r.2))
    (st0, [])

/-- The at-least-one-good-copy property relative to an initial store: every
file initially present in the active directory is still readable with its
original bytes from the active directory or from the backup directory. -/
def keepsCopy (st0 st : Store) : Prop :=
  ∀ n bs, st0.active.read n = some bs →
    st.active.read n = some bs ∨ st.backup.read n = some bs

/-- Strengthened invariant used in the induction: additionally, an active
file either still holds its original bytes or is gone (its bytes are never
mutated in place). -/
def Preserved (st0 st : Store) : Prop :=
  ∀ n bs, st0.active.read n = some bs →
    (st.active.read n = some bs ∨ st.active.read n = none) ∧
    (st.active.read n = some bs ∨ st.backup.read n = some bs)

/-- The top-level strategy actions of the `__main__` block (lines 69-84). -/
inductive MainStep where
  | remove_broken
  | download_compatible
  | invalid_choice
  deriving DecidableEq, Repr

/-- Characters removed by Python's `str.strip()` with no argument. -/
def pyWhitespace (c : Char) : Bool :=
  c = ' ' || c = '\t' || c = '\n' || c = '\r' || c = '\x0b' || c = '\x0c'

/-- Drop the longest leading run of characters satisfying `p`. -/
def dropLeading (p : Char → Bool) : List Char → List Char
  | [] => []
  | c :: cs => if p c then dropLeading p cs else c :: cs

/-- Python's `str.strip()`: remove leading and trailing whitespace. -/
def pyStrip (s : String) : String :=
  String.mk ((dropLeading pyWhitespace
    ((dropLeading pyWhitespace s.data).reverse)).reverse)

/-- The `__main__` block (lines 69-84): the strategy is selected by the
string read from the interactive `input()` prompt, stripped; `"1"` removes
the broken models, `"2"` removes them and downloads replacements, anything
else does nothing.  The function's argument is exactly that interactively
read line — there is no caller-supplied policy parameter. -/
def fixModelsMain (choice : String) : List MainStep :=
  let c := pyStrip choice
  if c = "1" then [.remove_broken]
  else if c = "2" then [.remove_broken, .download_compatible]
  else [.invalid_choice]

end fix_models_strategy

namespace download_mobile_models

/-!
Embedding of `Scripts/download_mobile_models.py`.
-/

/-- Outcome of one `urllib.request.urlretrieve` call: the retrieved size, or
the raised exception's message. -/
inductive DownloadOutcome where
  | ok (size : Nat)
  | failed (e : String)
  deriving DecidableEq, Repr

/-- Function `download_model` (lines 11-20): the whole body is inside `try`, so any
exception is caught and reported as `False`; success returns `True`.  It
never raises. -/
def download_model (outcome : DownloadOutcome) : Bool :=
  match outcome with
  | .ok _ => true
  | .failed _ => false

/-- The `mobile_models` name-to-URL table of `main` (lines 27-39). -/
def mobile_models : List (String × String) :=
  [("table_detection_mobile.tflite",
    "https://storage.googleapis.com/mediapipe-models/object_detector/efficientdet_lite0/float16/1/efficientdet_lite0.tflite"),
   ("text_recognition_mobile.tflite",
    "https://storage.googleapis.com/mediapipe-models/text_classifier/bert_classifier/float32/1/bert_classifier.tflite"),
   ("document_classifier_mobile.tflite",
    "https://storage.googleapis.com/tfhub-lite-models/tensorflow/lite-model/mobilebert/1/default/1.tflite"),
   ("financial_validator_mobile.tflite",
    "https://github.com/tensorflow/examples/raw/master/lite/examples/text_classification/android/app/src/main/assets/text_classification.tflite")]

/-- The compatibility configuration document written by `main`
(lines 52-61). -/
structure MobileConfig where
  mobile_models : List (String × String)
  fallback_enabled : Bool
  use_vision_framework : Bool
  deriving DecidableEq, Repr

/-- Function `main` (lines 22-68): attempt every download (each outcome supplied by
the oracle `outcome`, keyed by URL), count successes, then write the
configuration document.  Returns the success count and the configuration
written to `mobile_models_config.json`. -/
def mobileMain (outcome : String → DownloadOutcome) : Nat × MobileConfig :=
  let success_count :=
    mobile_models.foldl
      (fun acc entry => if download_model (outcome entry.2) then acc + 1 else acc) 0
  let config : MobileConfig :=
    { mobile_models :=
        [("table_detection", "Mobile/table_detection_mobile.tflite"),
         ("text_recognition", "Mobile/text_recognition_mobile.tflite"),
         ("document_classifier", "Mobile/document_classifier_mobile.tflite"),
         ("financial_validator", "Mobile/financial_validator_mobile.tflite")]
      fallback_enabled := true
      use_vision_framework := true }
  (success_count, config)

end download_mobile_models

end PayslipMax

/-!
Helper lemmas.
-/

namespace PayslipMax

theorem FS.read_write_self (fs : FS) (p : String) (bs : Bytes) :
    (fs.write p bs).read p = some bs := by
  simp [FS.write, FS.read]

theorem FS.read_write_ne (fs : FS) (p q : String) (bs : Bytes) (h : p ≠ q) :
    (fs.write p bs).read q = fs.read q := by
  simp [FS.write, FS.read, h]

theorem FS.read_filter_ne (fs : FS) (m n : String) (h : n ≠ m) :
    FS.read (fs.filter (fun f => f.1 != m)) n = fs.read n := by
  induction fs with
  | nil => rfl
  | cons hd tl ih =>
    cases hd with
    | mk q bs =>
      by_cases hq : q = m
      · have hb : ((q, bs).1 != m) = false := by simp [hq]
        rw [List.filter_cons, hb]
        simp only [Bool.false_eq_true, if_false]
        rw [ih]
        have hqn : ¬ (q = n) := fun hh => h (by rw [← hh, hq])
        simp [FS.read, hqn]
      · have hb : ((q, bs).1 != m) = true := by simp [hq]
        rw [List.filter_cons, hb]
        simp only [if_true]
        by_cases hqn : q = n
        · simp [FS.read, hqn]
        · simp only [FS.read, if_neg hqn]
          exact ih

theorem FS.read_filter_self (fs : FS) (m : String) :
    FS.read (fs.filter (fun f => f.1 != m)) m = none := by
  induction fs with
  | nil => rfl
  | cons hd tl ih =>
    cases hd with
    | mk q bs =>
      by_cases hq : q = m
      · have hb : ((q, bs).1 != m) = false := by simp [hq]
        rw [List.filter_cons, hb]
        simp only [Bool.false_eq_true, if_false]
        exact ih
      · have hb : ((q, bs).1 != m) = true := by simp [hq]
        rw [List.filter_cons, hb]
        simp only [if_true, FS.read, if_neg hq]
        exact ih

namespace download_models

theorem readChunks_flatten_aux (n : Nat) (hn : n ≠ 0) :
    ∀ (k : Nat) (l : Bytes), l.length ≤ k → (readChunks n l).flatten = l := by
  intro k
  induction k with
  | zero =>
    intro l hl
    have hnil : l = [] := by
      cases l with
      | nil => rfl
      | cons b t => simp at hl
    subst hnil
    simp [readChunks]
  | succ k ih =>
    intro l hl
    match l with
    | [] => simp [readChunks]
    | b :: t =>
      rw [readChunks]
      simp only [if_neg hn, List.flatten_cons]
      rw [ih ((b :: t).drop n) (by
        simp only [List.length_drop, List.length_cons]
        simp only [List.length_cons] at hl
        omega)]
      exact List.take_append_drop n (b :: t)

theorem readChunks_flatten (n : Nat) (hn : n ≠ 0) (l : Bytes) :
    (readChunks n l).flatten = l :=
  readChunks_flatten_aux n hn l.length l (Nat.le_refl _)

theorem foldl_update_message (cs : List Bytes) (acc : Bytes) :
    (cs.foldl HashObj.update ⟨acc⟩).message = acc ++ cs.flatten := by
  induction cs generalizing acc with
  | nil => simp
  | cons c rest ih =>
    simp only [List.foldl_cons, List.flatten_cons]
    rw [HashObj.update, ih]
    simp

theorem calculate_checksum_with_eq (sha256 : Bytes → String) (n : Nat)
    (hn : 0 < n) (contents : Bytes) :
    calculate_checksum_with sha256 n contents = sha256 contents := by
  simp only [calculate_checksum_with, HashObj.hexdigest]
  rw [foldl_update_message, readChunks_flatten n (Nat.pos_iff_ne_zero.mp hn)]
  simp

theorem calculate_checksum_eq (sha256 : Bytes → String) (contents : Bytes) :
    calculate_checksum sha256 contents = sha256 contents :=
  calculate_checksum_with_eq sha256 4096 (by omega) contents

end download_models

end PayslipMax

/-!
Claim theorems.
-/

/-- C6: folding a file's contents into the SHA-256 state in fixed-size
chunks, as `calculate_checksum` does with 4096-byte chunks, yields the same
hex string as digesting the entire contents at once; the same string results
for any other positive internal chunk size, so two computations over the
same bytes always agree. -/
theorem checksum_chunking_irrelevant (sha256 : PayslipMax.Bytes → String)
    (contents : PayslipMax.Bytes) (n : Nat) (hn : 0 < n) :
    PayslipMax.download_models.calculate_checksum sha256 contents = sha256 contents ∧
    PayslipMax.download_models.calculate_checksum_with sha256 n contents =
      PayslipMax.download_models.calculate_checksum sha256 contents := by
  constructor
  · exact PayslipMax.download_models.calculate_checksum_with_eq sha256 4096 (by omega) contents
  · rw [PayslipMax.download_models.calculate_checksum_with_eq sha256 n hn contents,
      PayslipMax.download_models.calculate_checksum,
      PayslipMax.download_models.calculate_checksum_with_eq sha256 4096 (by omega) contents]

/-- Witness for `checksum_chunking_irrelevant` at chunk size 7 on a concrete
five-byte file. -/
theorem checksum_chunking_irrelevant_witness :
    PayslipMax.download_models.calculate_checksum (fun bs => toString bs.length)
      [10, 20, 30, 40, 50] = "5" ∧
    PayslipMax.download_models.calculate_checksum_with (fun bs => toString bs.length) 7
      [10, 20, 30, 40, 50] =
      PayslipMax.download_models.calculate_checksum (fun bs => toString bs.length)
      [10, 20, 30, 40, 50] :=
  checksum_chunking_irrelevant (fun bs => toString bs.length) [10, 20, 30, 40, 50] 7
    (by omega)

open PayslipMax PayslipMax.download_models in
/-- C1: in every successful run of the model-creation pipeline, each entry of
the written manifest's models mapping records a checksum equal to the digest
of the bytes of the file named by its filename field (resolved in the
directory holding the manifest) and a size_bytes equal to that file's length,
so reading the model afterwards returns bytes whose digest equals the
manifest's recorded checksum. -/
theorem manifest_records_digest_and_size (sha256 : Bytes → String)
    (tflite_model tflite_ocr tflite_fin : Bytes) (fs0 : FS)
    (name : String) (entry : ModelEntry)
    (hmem : (name, entry) ∈
      (main sha256 tflite_model tflite_ocr tflite_fin fs0).2.1.models) :
    ∃ bs, (main sha256 tflite_model tflite_ocr tflite_fin fs0).1.read
        ("converted_models/" ++ entry.filename) = some bs ∧
      sha256 bs = entry.checksum ∧ bs.length = entry.size_bytes := by
  simp only [main, List.mem_cons, List.not_mem_nil, or_false] at hmem
  simp only [main]
  rcases hmem with h | h | h
  · injection h with h1 h2
    subst h1
    subst h2
    exact ⟨tflite_model, rfl,
      (calculate_checksum_eq sha256 tflite_model).symm, rfl⟩
  · injection h with h1 h2
    subst h1
    subst h2
    exact ⟨tflite_ocr, rfl,
      (calculate_checksum_eq sha256 tflite_ocr).symm, rfl⟩
  · injection h with h1 h2
    subst h1
    subst h2
    exact ⟨tflite_fin, rfl,
      (calculate_checksum_eq sha256 tflite_fin).symm, rfl⟩

open PayslipMax PayslipMax.download_models in
/-- Witness for `manifest_records_digest_and_size` on concrete blobs and a
length-string digest map, at the first manifest entry. -/
theorem manifest_records_digest_and_size_witness :
    ∃ bs, (main (fun bs => toString bs.length) [3, 1] [4] [5, 9, 2] []).1.read
        ("converted_models/" ++ "pp_structure_v2_real.tflite") = some bs ∧
      (fun (bs : Bytes) => toString bs.length) bs =
        calculate_checksum (fun bs => toString bs.length) [3, 1] ∧
      bs.length = 2 :=
  manifest_records_digest_and_size (fun bs => toString bs.length)
    [3, 1] [4] [5, 9, 2] [] "pp_structure_v2_real"
    { filename := "pp_structure_v2_real.tflite"
      version := "3.0.0"
      size_bytes := 2
      checksum := calculate_checksum (fun bs => toString bs.length) [3, 1]
      description := "Real PP-StructureV2 enhanced table structure recognition"
      input_shape := [1, 608, 608, 3]
      output_shape := [1, 152, 152, 5]
      accuracy_baseline := "0.98"
      performance_target_ms := 250
      enhancement_type := "real_tensorflow_lite_model" }
    (List.Mem.head _)

open PayslipMax PayslipMax.download_models in
/-- C7: in every successful pipeline run the metadata document is written
only after the bytes of every model file it references are fully written:
the manifest write is the last mutation in the run's trace, every earlier
mutation is a model-file write, and each file the manifest references was
written, with its final bytes, strictly before the manifest. -/
theorem manifest_written_after_model_bytes (sha256 : Bytes → String)
    (tflite_model tflite_ocr tflite_fin : Bytes) (fs0 : FS) :
    (main sha256 tflite_model tflite_ocr tflite_fin fs0).2.2.getLast? =
      some (Event.writeManifest "converted_models/model_metadata_v3.json"
        (main sha256 tflite_model tflite_ocr tflite_fin fs0).2.1) ∧
    (∀ ev ∈ (main sha256 tflite_model tflite_ocr tflite_fin fs0).2.2.dropLast,
      ∃ p bs, ev = Event.writeFile p bs) ∧
    (∀ ne ∈ (main sha256 tflite_model tflite_ocr tflite_fin fs0).2.1.models,
      ∃ bs, Event.writeFile ("converted_models/" ++ ne.2.filename) bs ∈
          (main sha256 tflite_model tflite_ocr tflite_fin fs0).2.2.dropLast ∧
        (main sha256 tflite_model tflite_ocr tflite_fin fs0).1.read
          ("converted_models/" ++ ne.2.filename) = some bs) := by
  refine ⟨rfl, ?_, ?_⟩
  · intro ev hev
    simp only [main, List.dropLast, List.mem_cons, List.not_mem_nil, or_false] at hev
    rcases hev with h | h | h
    · exact ⟨_, _, h⟩
    · exact ⟨_, _, h⟩
    · exact ⟨_, _, h⟩
  · intro ne hne
    simp only [main, List.mem_cons, List.not_mem_nil, or_false] at hne
    rcases hne with h | h | h
    · subst h
      exact ⟨tflite_model, by simp [main], rfl⟩
    · subst h
      exact ⟨tflite_ocr, by simp [main], rfl⟩
    · subst h
      exact ⟨tflite_fin, by simp [main], rfl⟩

open PayslipMax PayslipMax.download_models in
/-- Witness for `manifest_written_after_model_bytes` at concrete inputs,
extracting the last-event fact. -/
theorem manifest_written_after_model_bytes_witness :
    (main (fun _ => "h") [1] [2] [3] []).2.2.getLast? =
      some (Event.writeManifest "converted_models/model_metadata_v3.json"
        (main (fun _ => "h") [1] [2] [3] []).2.1) :=
  (manifest_written_after_model_bytes (fun _ => "h") [1] [2] [3] []).1

open PayslipMax PayslipMax.download_models in
/-- C2 counterexample: a fetch that fails mid-stream (one chunk delivered,
then a network error) raises a transfer error but leaves the destination
holding the delivered partial prefix of the payload — the destination is
neither removed nor truncated, refuting the claim that partial writes on
failure are discarded. -/
theorem download_file_leftover_write_counterexample :
    (download_file true (.stream [[7, 7]] true) "paddle_models/model.pdmodel" []).1 =
      .error "connection broken during transfer" ∧
    (download_file true (.stream [[7, 7]] true) "paddle_models/model.pdmodel" []).2.read
      "paddle_models/model.pdmodel" = some [7, 7] ∧
    some ([7, 7] : Bytes) ≠ none ∧ some ([7, 7] : Bytes) ≠ some [] := by
  refine ⟨rfl, rfl, by simp, by simp⟩

open PayslipMax PayslipMax.download_models in
/-- C2 amended: on a non-success HTTP status or an unopenable destination the
fetch fails with a transfer error and the destination is untouched, but on a
mid-stream network failure `download_file` propagates the error only after
the delivered chunks have been written: the destination is left holding the
concatenation of the chunks received so far (a partial prefix of the
payload), not removed or truncated. -/
theorem download_file_failure_behaviour (filename : String) (fs : FS) :
    (∀ (canOpen : Bool) (code : Nat),
      download_file canOpen (.badStatus code) filename fs =
        (.error ("HTTPError " ++ toString code), fs)) ∧
    (∀ (chunks : List Bytes) (midError : Bool),
      download_file false (.stream chunks midError) filename fs =
        (.error "destination cannot be opened for writing", fs)) ∧
    (∀ chunks : List Bytes,
      download_file true (.stream chunks true) filename fs =
        (.error "connection broken during transfer",
          fs.write filename chunks.flatten)) :=
  ⟨fun _ _ => rfl, fun _ _ => rfl, fun _ => rfl⟩

open PayslipMax PayslipMax.convert_edgetpu_to_cpu in
theorem convertLoop_never_writes (onDisk : String → Bool)
    (load : String → Except String Unit) (backupOnDisk : String → Bool)
    (l : List (String × String)) (p : String) :
    CAction.writeCpuModel p ∉ convertLoop onDisk load backupOnDisk l := by
  induction l with
  | nil => simp [convertLoop]
  | cons hd tl ih =>
    cases hd with
    | mk orig cpu =>
      by_cases h1 : onDisk ("PayslipMax/Resources/Models/" ++ orig) = false
      · simp [convertLoop, h1, ih]
      · by_cases h2 :
          (check_model_compatibility (load ("PayslipMax/Resources/Models/" ++ orig))
            ("PayslipMax/Resources/Models/" ++ orig)).1
        · simp [convertLoop, h1, h2, ih]
        · by_cases h3 :
            backupOnDisk ("PayslipMax/Resources/Models/EdgeTPU_Backup/" ++ orig)
          · simp [convertLoop, h1, h2, h3]
          · simp [convertLoop, h1, h2, h3]

open PayslipMax PayslipMax.convert_edgetpu_to_cpu in
/-- C4: a probe whose interpreter load fails with a message containing
`edgetpu-custom-op` classifies the artifact as incompatible with exactly that
reason and returns the rejecting verdict; and the conversion driver never
writes a converted model into the active models directory (no commit of any
artifact is attempted), whatever the load outcomes are. -/
theorem edgetpu_custom_op_incompatible_no_commit (e : String)
    (he : pyIn "edgetpu-custom-op" e = true) (model_path : String) :
    check_model_compatibility (.error e) model_path =
      (false, .edgetpuIncompatible model_path e) ∧
    ∀ (onDisk : String → Bool) (load : String → Except String Unit)
      (backupOnDisk : String → Bool) (p : String),
      CAction.writeCpuModel p ∉ convertMain onDisk load backupOnDisk := by
  constructor
  · simp [check_model_compatibility, he]
  · intro onDisk load backupOnDisk p
    exact convertLoop_never_writes onDisk load backupOnDisk models_to_convert p

open PayslipMax PayslipMax.convert_edgetpu_to_cpu in
/-- Witness for `edgetpu_custom_op_incompatible_no_commit` at a concrete
interpreter error message. -/
theorem edgetpu_custom_op_incompatible_no_commit_witness :
    check_model_compatibility
        (.error "Encountered unresolved custom op: edgetpu-custom-op.")
        "PayslipMax/Resources/Models/pp_ocr_v3.tflite" =
      (false, .edgetpuIncompatible "PayslipMax/Resources/Models/pp_ocr_v3.tflite"
        "Encountered unresolved custom op: edgetpu-custom-op.") ∧
    ∀ (onDisk : String → Bool) (load : String → Except String Unit)
      (backupOnDisk : String → Bool) (p : String),
      CAction.writeCpuModel p ∉ convertMain onDisk load backupOnDisk :=
  edgetpu_custom_op_incompatible_no_commit
    "Encountered unresolved custom op: edgetpu-custom-op." (by decide)
    "PayslipMax/Resources/Models/pp_ocr_v3.tflite"

open PayslipMax PayslipMax.convert_edgetpu_to_cpu in
/-- C3 counterexample: an artifact whose load fails for a reason other than
an unsupported custom operator (here, resource exhaustion) receives the very
same rejecting verdict `false` as the permanent `edgetpu-custom-op`
rejection — there is no indeterminate verdict — and the driver takes exactly
the same actions (backing the artifact up as broken) on both failures, so
the failure is treated as a rejection of the artifact, not as retryable. -/
theorem probe_other_error_counterexample :
    (check_model_compatibility
        (.error "Failed to allocate tensors: out of memory") "m").1 = false ∧
    (check_model_compatibility
        (.error "Did not find custom op: edgetpu-custom-op") "m").1 = false ∧
    convertMain (fun _ => true)
        (fun _ => .error "Failed to allocate tensors: out of memory")
        (fun _ => false) =
      convertMain (fun _ => true)
        (fun _ => .error "Did not find custom op: edgetpu-custom-op")
        (fun _ => false) ∧
    CAction.backupCopy "PayslipMax/Resources/Models/table_detection.tflite"
        "PayslipMax/Resources/Models/EdgeTPU_Backup/table_detection.tflite" ∈
      convertMain (fun _ => true)
        (fun _ => .error "Failed to allocate tensors: out of memory")
        (fun _ => false) := by
  refine ⟨rfl, rfl, by decide, by decide⟩

open PayslipMax PayslipMax.convert_edgetpu_to_cpu in
/-- C3 amended: a load failure whose message does not contain
`edgetpu-custom-op` is logged distinctly (as an Other error) but the probe
returns the same rejecting verdict `false` as for the permanent custom-op
incompatibility; no indeterminate or retryable verdict exists. -/
theorem probe_other_error_same_verdict (e : String)
    (he : pyIn "edgetpu-custom-op" e = false) (model_path : String) :
    check_model_compatibility (.error e) model_path =
      (false, .otherError model_path e) ∧
    (check_model_compatibility (.error e) model_path).1 =
      (check_model_compatibility (.error "edgetpu-custom-op") model_path).1 := by
  have hedge : pyIn "edgetpu-custom-op" "edgetpu-custom-op" = true := by decide
  constructor
  · simp [check_model_compatibility, he]
  · simp [check_model_compatibility, he, hedge]

open PayslipMax PayslipMax.convert_edgetpu_to_cpu in
/-- Witness for `probe_other_error_same_verdict` at a concrete resource
exhaustion message. -/
theorem probe_other_error_same_verdict_witness :
    check_model_compatibility
        (.error "Failed to allocate tensors: out of memory") "m.tflite" =
      (false, .otherError "m.tflite" "Failed to allocate tensors: out of memory") ∧
    (check_model_compatibility
        (.error "Failed to allocate tensors: out of memory") "m.tflite").1 =
      (check_model_compatibility (.error "edgetpu-custom-op") "m.tflite").1 :=
  probe_other_error_same_verdict "Failed to allocate tensors: out of memory"
    (by decide) "m.tflite"

open PayslipMax PayslipMax.convert_edgetpu_to_cpu in
/-- C5: converting with `allow_custom_ops = False` a source model containing
an operator that no requested operator set supports fails with an
unsupported-operator error and produces no output bytes: the function
returns failure with the unsupported-operator message and the filesystem is
returned unchanged, so the output path is not written. -/
theorem unsupported_operator_no_output (supports : OpsSet → String → Bool)
    (m : SavedModel) (output_path : String) (fs : FS)
    (h : ∃ op ∈ m.ops, ∀ s : OpsSet, supports s op = false) :
    (∃ op, convert_model_from_saved_model supports m output_path fs =
      ((false, some ("Conversion failed: " ++ ("Unsupported operator: " ++ op))), fs)) ∧
    (convert_model_from_saved_model supports m output_path fs).2.read output_path =
      fs.read output_path := by
  obtain ⟨op, hop, hsup⟩ := h
  have hpred :
      (fun o => !([OpsSet.TFLITE_BUILTINS, OpsSet.SELECT_TF_OPS].any
        (fun s => supports s o))) op = true := by
    simp [hsup]
  have hsome :
      (m.ops.find? (fun o => !([OpsSet.TFLITE_BUILTINS, OpsSet.SELECT_TF_OPS].any
        (fun s => supports s o)))).isSome :=
    List.find?_isSome.mpr ⟨op, hop, hpred⟩
  obtain ⟨op', hfind⟩ := Option.isSome_iff_exists.mp hsome
  have hfind' : List.find?
      (fun o => !supports OpsSet.TFLITE_BUILTINS o && !supports OpsSet.SELECT_TF_OPS o)
      m.ops = some op' := by
    simpa using hfind
  constructor
  · refine ⟨op', ?_⟩
    simp only [convert_model_from_saved_model, converterConvert]
    simp only [List.any_cons, List.any_nil, Bool.or_false, Bool.not_or]
    rw [hfind']
    simp
  · simp only [convert_model_from_saved_model, converterConvert]
    simp only [List.any_cons, List.any_nil, Bool.or_false, Bool.not_or]
    rw [hfind']
    simp

open PayslipMax PayslipMax.convert_edgetpu_to_cpu in
/-- Witness for `unsupported_operator_no_output`: a source model using one
operator supported by no requested operator set, under a support oracle that
accepts nothing. -/
theorem unsupported_operator_no_output_witness :
    (∃ op, convert_model_from_saved_model (fun _ _ => false)
        ⟨["edgetpu-custom-op"], [1, 2]⟩ "out.tflite" [("x", [0])] =
      ((false, some ("Conversion failed: " ++ ("Unsupported operator: " ++ op))),
        [("x", [0])])) ∧
    (convert_model_from_saved_model (fun _ _ => false)
        ⟨["edgetpu-custom-op"], [1, 2]⟩ "out.tflite" [("x", [0])]).2.read
      "out.tflite" = FS.read [("x", [0])] "out.tflite" :=
  unsupported_operator_no_output (fun _ _ => false)
    ⟨["edgetpu-custom-op"], [1, 2]⟩ "out.tflite" [("x", [0])]
    ⟨"edgetpu-custom-op", by simp, fun _ => rfl⟩

open PayslipMax PayslipMax.fix_models_strategy in
/-- C9 counterexample: the replacement actions performed by the script's
entry block are a function of the interactively read choice string alone —
there is no caller-supplied policy parameter — and two runs differing only
in what was read interactively perform different replacement actions,
refuting the claim that the strategy is never decided by interactive
input. -/
theorem strategy_interactive_counterexample :
    fixModelsMain "1" ≠ fixModelsMain "2" ∧
    fixModelsMain "1" = [MainStep.remove_broken] ∧
    fixModelsMain "2" = [MainStep.remove_broken, MainStep.download_compatible] := by
  refine ⟨by decide, by decide, by decide⟩

open PayslipMax PayslipMax.fix_models_strategy in
/-- C9 amended: the choice between the remove-only and remove-and-replace
strategies is decided by the interactively read input line, deterministically
in that line: stripped input "1" removes the broken models only, "2" removes
and replaces them, and anything else performs no replacement action. -/
theorem strategy_decided_by_interactive_input (choice : String) :
    (pyStrip choice = "1" → fixModelsMain choice = [MainStep.remove_broken]) ∧
    (pyStrip choice = "2" →
      fixModelsMain choice = [MainStep.remove_broken, MainStep.download_compatible]) ∧
    (pyStrip choice ≠ "1" → pyStrip choice ≠ "2" →
      fixModelsMain choice = [MainStep.invalid_choice]) := by
  refine ⟨fun h => ?_, fun h => ?_, fun h1 h2 => ?_⟩
  · simp [fixModelsMain, h]
  · simp [fixModelsMain, h]
  · simp [fixModelsMain, h1, h2]

open PayslipMax PayslipMax.fix_models_strategy in
/-- Witness for `strategy_decided_by_interactive_input` at the interactive
input " 2 " (stripped to "2"). -/
theorem strategy_decided_by_interactive_input_witness :
    fixModelsMain " 2 " = [MainStep.remove_broken, MainStep.download_compatible] :=
  (strategy_decided_by_interactive_input " 2 ").2.1 (by decide)

open PayslipMax PayslipMax.download_mobile_models in
/-- C10: the mobile-model downloader writes the compatibility configuration
with `fallback_enabled = true` and `use_vision_framework = true`
unconditionally: whatever the outcome of each individual download — including
a run in which every download fails — the written configuration content is
the same. -/
theorem mobile_config_written_unconditionally (outcome : String → DownloadOutcome) :
    (mobileMain outcome).2.fallback_enabled = true ∧
    (mobileMain outcome).2.use_vision_framework = true ∧
    (mobileMain outcome).2 = (mobileMain (fun _ => .failed "no network")).2 :=
  ⟨rfl, rfl, rfl⟩

open PayslipMax PayslipMax.fix_models_strategy in
theorem Preserved_init (st0 : Store) : Preserved st0 st0 :=
  fun _ _ hn => ⟨Or.inl hn, Or.inl hn⟩

open PayslipMax PayslipMax.fix_models_strategy in
theorem Preserved_copy2 (st0 st : Store) (h : Preserved st0 st) (m : String) :
    Preserved st0 (st.copy2 m) := by
  intro n bs hn
  obtain ⟨ha, hb⟩ := h n bs hn
  cases hm : st.active.read m with
  | none =>
    simp only [Store.copy2, hm]
    exact ⟨ha, hb⟩
  | some b =>
    simp only [Store.copy2, hm]
    refine ⟨ha, ?_⟩
    by_cases hnm : n = m
    · subst hnm
      rcases ha with ha1 | ha1
      · right
        rw [ha1] at hm
        injection hm with hbs
        rw [hbs] at *
        exact FS.read_write_self st.backup n b
      · rw [ha1] at hm
        exact absurd hm (by simp)
    · rcases hb with hb1 | hb1
      · exact Or.inl hb1
      · right
        rw [FS.read_write_ne st.backup m n b (fun hc => hnm hc.symm)]
        exact hb1

open PayslipMax PayslipMax.fix_models_strategy in
theorem Preserved_copy2_unlink (st0 st : Store) (h : Preserved st0 st) (m : String) :
    Preserved st0 ((st.copy2 m).unlink m) := by
  have h1 := Preserved_copy2 st0 st h m
  intro n bs hn
  obtain ⟨ha1, hb1⟩ := h1 n bs hn
  obtain ⟨ha0, hb0⟩ := h n bs hn
  constructor
  · by_cases hnm : n = m
    · subst hnm
      right
      exact FS.read_filter_self (st.copy2 n).active n
    · rw [Store.unlink]
      simp only
      rw [FS.read_filter_ne (st.copy2 m).active m n hnm]
      exact ha1
  · by_cases hnm : n = m
    · subst hnm
      right
      rcases ha0 with ha | ha
      · simp only [Store.unlink, Store.copy2, ha]
        exact FS.read_write_self st.backup n bs
      · rcases hb0 with hb | hb
        · rw [ha] at hb
          exact absurd hb (by simp)
        · simp only [Store.unlink, Store.copy2, ha]
          exact hb
    · rcases hb1 with hb | hb
      · left
        rw [Store.unlink]
        simp only
        rw [FS.read_filter_ne (st.copy2 m).active m n hnm]
        exact hb
      · right
        exact hb

open PayslipMax PayslipMax.fix_models_strategy in
theorem processMatched_preserved (st0 : Store) (names : List String) :
    ∀ st : Store, Preserved st0 st →
      Preserved st0 (processMatched st names).1 ∧
      ∀ s ∈ (processMatched st names).2, Preserved st0 s := by
  induction names with
  | nil =>
    intro st h
    exact ⟨h, by simp [processMatched]⟩
  | cons n rest ih =>
    intro st h
    have h1 : Preserved st0 (st.copy2 n) := Preserved_copy2 st0 st h n
    have h2 : Preserved st0 ((st.copy2 n).unlink n) := Preserved_copy2_unlink st0 st h n
    obtain ⟨hf, hall⟩ := ih ((st.copy2 n).unlink n) h2
    refine ⟨hf, ?_⟩
    intro s hs
    simp only [processMatched, List.mem_cons] at hs
    rcases hs with rfl | rfl | hs
    · exact h1
    · exact h2
    · exact hall s hs

open PayslipMax PayslipMax.fix_models_strategy in
theorem patterns_fold_preserved (st0 : Store) (pats : List String) :
    ∀ (st : Store) (states : List Store), Preserved st0 st →
      (∀ s ∈ states, Preserved st0 s) →
      Preserved st0 (pats.foldl
        (fun acc pat =>
          let r := processPattern acc.1 pat
          (r.1, acc.2 ++ r.2)) (st, states)).1 ∧
      ∀ s ∈ (pats.foldl
        (fun acc pat =>
          let r := processPattern acc.1 pat
          (r.1, acc.2 ++ r.2)) (st, states)).2, Preserved st0 s := by
  induction pats with
  | nil =>
    intro st states h hs
    exact ⟨h, hs⟩
  | cons p rest ih =>
    intro st states h hs
    simp only [List.foldl_cons]
    have hp := processMatched_preserved st0
      (((st.active.filter (fun f => globMatch p f.1)).map Prod.fst)) st h
    obtain ⟨h1, h2⟩ := hp
    refine ih _ _ h1 ?_
    intro s hsmem
    rcases List.mem_append.mp hsmem with hh | hh
    · exact hs s hh
    · exact h2 s hh

open PayslipMax PayslipMax.fix_models_strategy in
theorem remove_broken_models_inv (st0 : Store) :
    Preserved st0 (remove_broken_models st0).1 ∧
    ∀ s ∈ (remove_broken_models st0).2, Preserved st0 s :=
  patterns_fold_preserved st0 broken_models st0 [] (Preserved_init st0) (by simp)

open PayslipMax PayslipMax.fix_models_strategy in
/-- C8: the model-replacement routine `remove_broken_models` never deletes an
active model file before a backup copy of its bytes is written: at every
intermediate state of the run (after each individual copy and each individual
removal), and at the final state, every file initially present in the active
models directory is still readable with its original bytes from the active
directory or from the backup directory — at-least-one-good-copy is never
violated. -/
theorem replacement_keeps_one_copy (st0 st : Store)
    (hst : st = (remove_broken_models st0).1 ∨ st ∈ (remove_broken_models st0).2)
    (n : String) (bs : Bytes) (hn : st0.active.read n = some bs) :
    st.active.read n = some bs ∨ st.backup.read n = some bs := by
  have hinv := remove_broken_models_inv st0
  rcases hst with h | h
  · rw [h]
    exact (hinv.1 n bs hn).2
  · exact (hinv.2 st h n bs hn).2

open PayslipMax PayslipMax.fix_models_strategy in
/-- Witness for `replacement_keeps_one_copy` on a store holding one broken
model, at the run's final state. -/
theorem replacement_keeps_one_copy_witness :
    ((remove_broken_models ⟨[("pp_ocr_v3.tflite", [1])], []⟩).1).active.read
        "pp_ocr_v3.tflite" = some [1] ∨
      ((remove_broken_models ⟨[("pp_ocr_v3.tflite", [1])], []⟩).1).backup.read
        "pp_ocr_v3.tflite" = some [1] :=
  replacement_keeps_one_copy ⟨[("pp_ocr_v3.tflite", [1])], []⟩
    (remove_broken_models ⟨[("pp_ocr_v3.tflite", [1])], []⟩).1
    (Or.inl rfl) "pp_ocr_v3.tflite" [1] rfl
